import Mathlib

/-!
Shallow embedding of the p1_multicast repository.

Embedded code:
* the telegram line decoder of `SlimmeMeter.read_datagram` in `P1listener.py`
  (framing state machine, OBIS field regexes, `parse_p1_value` unit decoding);
* the aggregation logic of `SlimmeMeter.read_datagram`, `SlimmeMeter.sorted_rows`
  and `SlimmeMeter.print_csv` in `P1reader.py` (sequence tracking, the default
  for the export-power key, the weekly measurement list, the rolling `lastten`
  buffer, the periodic csv batch, and the per-window statistics loop).

Modelling conventions: Python integers are `Int`/`Nat` (they are unbounded);
the decimal literals fed to Python `float()` by this meter format are modelled
as exact decimals (integer mantissa over a power of ten); a raised Python
exception is an explicit `Option String` / `Except String` value threaded
through the state-passing translation, with mutations that happened before the
raise retained, as in Python.  Text lines are `List Char`.
-/

/-- An exact decimal `num / 10 ^ scale`, the model of the Python `float`
values this meter format produces (`float()` of a short decimal string; the
binary rounding of an actual IEEE float is below the resolution used here). -/
structure PyFloat where
  num : Int
  scale : Nat
  deriving DecidableEq

/-- Python `int()` truncation toward zero of `a / 10 ^ scale`
(`int(...)` as used in `parse_p1_value`). -/
def pyTruncDiv (a : Int) (scale : Nat) : Int :=
  if 0 ≤ a then Int.ofNat (a.toNat / 10 ^ scale)
  else -Int.ofNat ((-a).toNat / 10 ^ scale)

/-- Numeric value of a list of decimal digit characters (most significant first). -/
def digitsToNat (ds : List Char) : Nat :=
  ds.foldl (fun acc c => 10 * acc + (c.toNat - 48)) 0

/-- Python `float(s)` on the decimal forms produced by the meter
(optional sign, integer digits, optional fractional digits; no exponent is
ever present in a P1 value).  `none` models a raised `ValueError`. -/
def parseFloat (s : List Char) : Option PyFloat :=
  let (sign, s1) :=
    match s with
    | '-' :: r => ((-1 : Int), r)
    | '+' :: r => ((1 : Int), r)
    | r => ((1 : Int), r)
  let ip := s1.takeWhile Char.isDigit
  let rest := s1.drop ip.length
  match rest with
  | [] => if ip.isEmpty then none else some ⟨sign * (digitsToNat ip : Int), 0⟩
  | '.' :: fr =>
    let fp := fr.takeWhile Char.isDigit
    let rest2 := fr.drop fp.length
    if rest2.isEmpty ∧ ¬(ip.isEmpty ∧ fp.isEmpty) then
      some ⟨sign * ((digitsToNat ip : Int) * 10 ^ fp.length + (digitsToNat fp : Int)),
        fp.length⟩
    else none
  | _ => none

/-- Python `int(s)` on a decimal integer string (optional sign, digits).
`none` models a raised `ValueError`. -/
def parseIntStr (s : List Char) : Option Int :=
  let (sign, s1) :=
    match s with
    | '-' :: r => ((-1 : Int), r)
    | '+' :: r => ((1 : Int), r)
    | r => ((1 : Int), r)
  let ds := s1.takeWhile Char.isDigit
  if ds.isEmpty ∨ ¬(s1.drop ds.length).isEmpty then none
  else some (sign * (digitsToNat ds : Int))

/-- Python `sub in s` substring test on strings. -/
def containsSub (sub l : List Char) : Bool :=
  (List.tails l).any (fun t => sub.isPrefixOf t)

/-- Python `value.split(Char.ofNat 42)[0]`: the characters before the first star. -/
def splitStarHead (v : List Char) : List Char :=
  v.takeWhile (fun c => c ≠ '*')

/-- A decoded P1 value: Python int, float (exact-decimal model) or string. -/
inductive PVal where
  | int (z : Int)
  | float (q : PyFloat)
  | str (s : List Char)
  deriving DecidableEq

/-- `SlimmeMeter.parse_p1_value` (P1listener.py lines 110-121): unit suffix
dispatch with substring tests, in source order.  `Except.error` models the
`ValueError` that Python `float()`/`int()` raises on a malformed number.
`int(1000 * float(s))` becomes truncation of `1000 * num / 10 ^ scale`. -/
def parse_p1_value (v : List Char) : Except String PVal :=
  if containsSub "*m3".data v then
    match parseFloat (splitStarHead v) with
    | some q => .ok (.int (pyTruncDiv (1000 * q.num) q.scale))
    | none => .error "ValueError"
  else if containsSub "*kW".data v then
    match parseFloat (splitStarHead v) with
    | some q => .ok (.int (pyTruncDiv (1000 * q.num) q.scale))
    | none => .error "ValueError"
  else if containsSub "*V".data v then
    match parseFloat (splitStarHead v) with
    | some q => .ok (.float q)
    | none => .error "ValueError"
  else if containsSub "*A".data v then
    match parseIntStr (splitStarHead v) with
    | some z => .ok (.int z)
    | none => .error "ValueError"
  else .ok (.str v)

/-- Python dict assignment `d[k] = v`: replace in place, else append
(insertion order preserved, as for a Python dict). -/
def dictSetD : List (List Char × PVal) → List Char → PVal → List (List Char × PVal)
  | [], k, v => [(k, v)]
  | (k1, v1) :: rest, k, v =>
    if k1 = k then (k1, v) :: rest else (k1, v1) :: dictSetD rest k v

/-- Python dict lookup `d[k]` / `k in d`, as an `Option`. -/
def dictGetD : List (List Char × PVal) → List Char → Option PVal
  | [], _ => none
  | (k1, v1) :: rest, k => if k1 = k then some v1 else dictGetD rest k

/-- One-or-more decimal digits (`\d+`), greedy; fails on zero digits. -/
def takeDigits1 (l : List Char) : Option (List Char × List Char) :=
  let d := l.takeWhile Char.isDigit
  if d.isEmpty then none else some (d, l.drop d.length)

/-- Consume one expected literal character. -/
def expectChar (c : Char) : List Char → Option (List Char)
  | [] => none
  | x :: r => if x = c then some r else none

/-- The OBIS key part of both field regexes in P1listener.py:
digits, dash, digits, colon, digits, dot, digits, dot, digits.
Returns the matched key and the remaining characters. -/
def matchObisKey (l : List Char) : Option (List Char × List Char) := do
  let (d1, r) ← takeDigits1 l
  let r ← expectChar '-' r
  let (d2, r) ← takeDigits1 r
  let r ← expectChar ':' r
  let (d3, r) ← takeDigits1 r
  let r ← expectChar '.' r
  let (d4, r) ← takeDigits1 r
  let r ← expectChar '.' r
  let (d5, r) ← takeDigits1 r
  pure (d1 ++ '-' :: d2 ++ ':' :: d3 ++ '.' :: d4 ++ '.' :: d5, r)

/-- Attempt of `P1_ONE_VALUE_RGX` at one start position: the OBIS key, an
opening parenthesis, a lazily-matched run of non-parenthesis-open characters,
a closing parenthesis, end of line.  Deterministic because the value class
excludes the opening parenthesis and the pattern is end-anchored. -/
def oneValueAt (l : List Char) : Option (List Char × List Char) := do
  let (key, r) ← matchObisKey l
  let r ← expectChar '(' r
  match r.getLast? with
  | some ')' =>
    let v := r.dropLast
    if v.contains '(' then none else pure (key, v)
  | _ => none

/-- Attempt of `P1_TWO_VALUES_RGX` at one start position: key, then two
parenthesised values, end-anchored; each value class excludes the opening
parenthesis, so the split point is the unique remaining opening parenthesis. -/
def twoValuesAt (l : List Char) : Option (List Char × List Char × List Char) := do
  let (key, r) ← matchObisKey l
  let r ← expectChar '(' r
  let pre := r.takeWhile (fun c => c ≠ '(')
  match r.drop pre.length with
  | '(' :: rest =>
    match pre.getLast? with
    | some ')' =>
      match rest.getLast? with
      | some ')' =>
        let v2 := rest.dropLast
        if v2.contains '(' then none else pure (key, pre.dropLast, v2)
      | _ => none
    | _ => none
  | _ => none

/-- Python `re.search`: try the pattern at each start position, left to right. -/
def searchPos {α : Type} (f : List Char → Option α) : List Char → Option α
  | [] => f []
  | x :: r =>
    match f (x :: r) with
    | some a => some a
    | none => searchPos f r

/-- `P1_ONE_VALUE_RGX.search(line)`. -/
def oneValueSearch (l : List Char) : Option (List Char × List Char) :=
  searchPos oneValueAt l

/-- `P1_TWO_VALUES_RGX.search(line)`. -/
def twoValuesSearch (l : List Char) : Option (List Char × List Char × List Char) :=
  searchPos twoValuesAt l

/-- Key under which `read_datagram` stores the frame header inside
`data['telegram']`. -/
def headerKey : List Char := "header".data

/-- Key under which `read_datagram` stores the frame checksum inside
`data['telegram']`. -/
def checksumKey : List Char := "checksum".data

/-- The `data` dict built by `SlimmeMeter.read_datagram` in P1listener.py:
the telegram mapping (header, OBIS fields, checksum) plus the frame number
from `data['meta']`.  The two wall-clock fields `frame-start-time` and
`frame-end-time` are real-time values and are not modelled. -/
structure DecData where
  telegram : List (List Char × PVal)
  frameNumber : Nat
  deriving DecidableEq

/-- Per-loop state of the decoder in `SlimmeMeter.read_datagram`
(P1listener.py lines 136-200): the partially built `data`, the
`first_line_read` flag and the `datagram_counter`. -/
structure DecState where
  data : DecData
  first_line_read : Bool
  datagram_counter : Nat
  deriving DecidableEq

/-- A freshly reset `data` dict. -/
def emptyDecData : DecData := ⟨[], 0⟩

/-- Decoder state at entry of the read loop. -/
def initDecState : DecState := ⟨emptyDecData, false, 0⟩

/-- One iteration of the `while True` loop of `SlimmeMeter.read_datagram`
(P1listener.py lines 156-200) on one input line.  Returns the new state, the
multicast message emitted (if the line completed a frame), and a raised
exception (if a matched value failed numeric parsing). -/
def decodeLine (st : DecState) (line : List Char) :
    DecState × Option DecData × Option String :=
  if st.first_line_read = false ∧ line.head? = some '/' then
    let counter := st.datagram_counter + 1
    (⟨⟨dictSetD st.data.telegram headerKey (.str line), counter⟩, true, counter⟩,
      none, none)
  else if st.first_line_read = false then
    (st, none, none)
  else if line.head? = some '!' ∧ line.length = 5 then
    let msg : DecData :=
      ⟨dictSetD st.data.telegram checksumKey (.str (line.drop 1)), st.data.frameNumber⟩
    (⟨emptyDecData, false, st.datagram_counter⟩, some msg, none)
  else
    match oneValueSearch line with
    | some (key, v) =>
      match parse_p1_value v with
      | .ok pv =>
        ({st with data := {st.data with telegram := dictSetD st.data.telegram key pv}},
          none, none)
      | .error e => (st, none, some e)
    | none =>
      match twoValuesSearch line with
      | some (key, v1, v2) =>
        match parse_p1_value v1 with
        | .error e => (st, none, some e)
        | .ok pv1 =>
          match parse_p1_value v2 with
          | .error e => (st, none, some e)
          | .ok pv2 =>
            let tg := dictSetD (dictSetD st.data.telegram (key ++ ".A".data) pv1)
              (key ++ ".B".data) pv2
            ({st with data := {st.data with telegram := tg}}, none, none)
      | none => (st, none, none)

/-- Run the decoder loop over a list of input lines, collecting all emitted
messages; a raised exception aborts the loop, as in Python. -/
def decodeLines : DecState → List (List Char) → DecState × List DecData × Option String
  | st, [] => (st, [], none)
  | st, l :: ls =>
    match decodeLine st l with
    | (st1, em, some e) => (st1, em.toList, some e)
    | (st1, em, none) =>
      let (st2, ems, err) := decodeLines st1 ls
      (st2, em.toList ++ ems, err)

/-- A telegram as received by the consumer (`data['telegram']` after JSON
decoding in P1reader.py): OBIS key to value.  The aggregation code only ever
reads the six integer energy/power fields, so values are modelled as `Int`. -/
def Telegram : Type := List (String × Int)

/-- Python dict lookup on a consumer telegram, as an `Option`. -/
def tLookup : Telegram → String → Option Int
  | [], _ => none
  | (k1, v1) :: rest, k => if k1 = k then some v1 else tLookup rest k

/-- Python dict assignment `telegram[k] = v` on a consumer telegram. -/
def dictSetT : Telegram → String → Int → Telegram
  | [], k, v => [(k, v)]
  | (k1, v1) :: rest, k, v =>
    if k1 = k then (k1, v) :: rest else (k1, v1) :: dictSetT rest k v

/-- Python subscript `telegram[k]`: `Except.error` models a raised `KeyError`. -/
def tGet (tg : Telegram) (k : String) : Except String Int :=
  match tLookup tg k with
  | some v => .ok v
  | none => .error ("KeyError: " ++ k)

/-- One entry of `self.csvdata` (P1reader.py line 423):
`[telegram_time, totalO, csvverbruik, totalI, csvlevering]`. -/
structure CsvEntry where
  t : Int
  totalO : Int
  verbruik : List Int
  totalI : Int
  levering : List Int
  deriving DecidableEq

/-- The consumer state of `SlimmeMeter` in P1reader.py (`__init__`,
lines 140-150): the accumulators, the first-moment marker `csvfm`, the sender
identity `who` and the expected `telegram_framenumber`.  The sender identity
(a socket address in the source) is modelled as a `Nat`. -/
structure AggState where
  measurements : List (List Int)
  lastten : List (Int × Int × Int)
  csvdata : List CsvEntry
  csvverbruik : List Int
  csvlevering : List Int
  csvfm : Int
  who : Option Nat
  telegram_framenumber : Int
  deriving DecidableEq

/-- The state built by `SlimmeMeter.__init__`. -/
def initAgg : AggState := ⟨[], [], [], [], [], 0, none, 0⟩

/-- The rolling-buffer update of P1reader.py lines 413-416: evict the oldest
entry and append when the length exceeds 120, otherwise just append. -/
def lasttenStep (buf : List (Int × Int × Int)) (s : Int × Int × Int) :
    List (Int × Int × Int) :=
  if buf.length > 120 then buf.drop 1 ++ [s] else buf ++ [s]

/-- `get_config_value(category='weekly_log', key='measurement_period', ...)`
with its stated default of 30 (P1reader.py line 408); the config file is an
external collaborator, so the default applies. -/
def weekly_log_measurement_period : Int := 30

/-- Sender-identity and frame-number tracking of `SlimmeMeter.read_datagram`
(P1reader.py lines 383-393).  Returns the updated state and whether the
"Missed ... telegrams" warning (a sequence gap) was emitted. -/
def seqStage (st : AggState) (sender : Nat) (frameNo : Int) : AggState × Bool :=
  let st :=
    if st.who ≠ some sender then
      {st with who := some sender, telegram_framenumber := frameNo}
    else st
  let (st, gap) :=
    if frameNo ≠ st.telegram_framenumber then
      ({st with telegram_framenumber := frameNo}, true)
    else (st, false)
  ({st with telegram_framenumber := st.telegram_framenumber + 1}, gap)

/-- The weekly-measurement append of P1reader.py lines 408-411; the six
telegram subscripts are evaluated left to right, so the first absent key
raises its `KeyError` and nothing is appended. -/
def weeklyStage (st : AggState) (t : Int) (tg : Telegram) : AggState × Option String :=
  if t % weekly_log_measurement_period = 0 then
    match (do
      let a ← tGet tg "1-0:1.8.1"
      let b ← tGet tg "1-0:1.8.2"
      let c ← tGet tg "1-0:1.7.0"
      let d ← tGet tg "1-0:2.8.1"
      let e ← tGet tg "1-0:2.8.2"
      let f ← tGet tg "1-0:2.7.0"
      pure [t, a, b, c, d, e, f] : Except String (List Int)) with
    | .ok row => ({st with measurements := st.measurements ++ [row]}, none)
    | .error e => (st, some e)
  else (st, none)

/-- The rolling-buffer update of P1reader.py lines 413-416 as a stage of
`read_datagram`, including the two telegram subscripts it performs. -/
def lasttenStage (st : AggState) (t : Int) (tg : Telegram) : AggState × Option String :=
  match tGet tg "1-0:1.7.0" with
  | .error e => (st, some e)
  | .ok pin =>
    match tGet tg "1-0:2.7.0" with
    | .error e => (st, some e)
    | .ok pout =>
      ({st with lastten := lasttenStep st.lastten (t, pin, pout)}, none)

/-- The periodic-batch accumulation and window close of P1reader.py lines
418-426: append the telegram's own power samples to the accumulation lists,
then close the window when `(t % 300 < 3 and t - csvfm > 10) or
(t - csvfm > 300)`; a `KeyError` inside the close leaves the earlier list
appends in place, as in Python. -/
def csvStage (st : AggState) (t : Int) (tg : Telegram) : AggState × Option String :=
  match tGet tg "1-0:1.7.0" with
  | .error e => (st, some e)
  | .ok pin =>
    let st := {st with csvverbruik := st.csvverbruik ++ [pin]}
    match tGet tg "1-0:2.7.0" with
    | .error e => (st, some e)
    | .ok pout =>
      let st := {st with csvlevering := st.csvlevering ++ [pout]}
      if (t % 300 < 3 ∧ t - st.csvfm > 10) ∨ t - st.csvfm > 300 then
        match tGet tg "1-0:1.8.1", tGet tg "1-0:1.8.2",
            tGet tg "1-0:2.8.1", tGet tg "1-0:2.8.2" with
        | .ok o1, .ok o2, .ok i1, .ok i2 =>
          let entry : CsvEntry := ⟨t, o1 + o2, st.csvverbruik, i1 + i2, st.csvlevering⟩
          ({st with csvdata := st.csvdata ++ [entry], csvfm := t, csvverbruik := [], csvlevering := []}, none)
        | .error e, _, _, _ => (st, some e)
        | _, .error e, _, _ => (st, some e)
        | _, _, .error e, _ => (st, some e)
        | _, _, _, .error e => (st, some e)
      else (st, none)

/-- The zero default for the export-power key (P1reader.py lines 404-406):
`if not '1-0:2.7.0' in telegram: telegram['1-0:2.7.0'] = 0`. -/
def defaultExportKey (tg : Telegram) : Telegram :=
  if (tLookup tg "1-0:2.7.0").isNone then dictSetT tg "1-0:2.7.0" 0 else tg

/-- The consumer-side processing of one received telegram by
`SlimmeMeter.read_datagram` (P1reader.py lines 380-428), after the JSON
payload has been decoded: sequence tracking, the zero default for the
export-power key `1-0:2.7.0` (lines 404-406), then the weekly, rolling-buffer
and periodic-batch stages in source order.  Returns the new state, whether a
sequence-gap warning was emitted, and a raised exception if any. -/
def read_datagram_process (st : AggState) (sender : Nat) (frameNo : Int)
    (t : Int) (tg0 : Telegram) : AggState × Bool × Option String :=
  let (st, gap) := seqStage st sender frameNo
  let tg := defaultExportKey tg0
  match weeklyStage st t tg with
  | (st, some e) => (st, gap, some e)
  | (st, none) =>
    match lasttenStage st t tg with
    | (st, some e) => (st, gap, some e)
    | (st, none) =>
      match csvStage st t tg with
      | (st, e) => (st, gap, e)

/-- Run `read_datagram_process` over a list of received telegrams
`(sender, frame-number, frame-start-time, telegram)`, collecting the
per-telegram gap flag and exception. -/
def runAgg : AggState → List (Nat × Int × Int × Telegram) →
    AggState × List (Bool × Option String)
  | st, [] => (st, [])
  | st, (s, f, t, tg) :: rest =>
    let (st1, gap, err) := read_datagram_process st s f t tg
    let (st2, outs) := runAgg st1 rest
    (st2, (gap, err) :: outs)

/-- The per-window statistics loop of `SlimmeMeter.print_csv`
(P1reader.py lines 250-276) on one sample list: starting from
`min = 999999, max = 0, sum = 0, N = 0`, fold the updates in source order.
Returns `(min, max, sum, N)`. -/
def csvStatsLoop (l : List Int) : Int × Int × Int × Int :=
  l.foldl (fun acc e =>
    let (mn, mx, sm, n) := acc
    let mx := if e > mx then e else mx
    let mn := if e < mn then e else mn
    (mn, mx, sm + e, n + 1)) (999999, 0, 0, 0)

/-- `avg = sum / N` of `print_csv` (true division, so no truncation). -/
def csvAvg (l : List Int) : ℚ :=
  ((csvStatsLoop l).2.2.1 : ℚ) / ((csvStatsLoop l).2.2.2 : ℚ)

/-- The timestamp argument `print_csv` passes to `time.localtime`
(P1reader.py line 279): `epoch_time / 300 * 300`, which in Python 3 is TRUE
division; modelled in exact arithmetic (the IEEE round trip differs from this
by less than a microsecond and is exact at the inputs considered). -/
def csvRowTimeArg (epoch : Int) : ℚ :=
  (epoch : ℚ) / 300 * 300

/-- Modelled from the spec: the claimed row timestamp, the sample's epoch
time floored down to the enclosing 300-second boundary. -/
def specFloored300 (epoch : Int) : Int :=
  Int.fdiv epoch 300 * 300

/-- `SlimmeMeter.sorted_rows` loop body (P1reader.py lines 161-170), with the
loop variables `first_timestamp`, `temp_row`, `sorted_row` explicit; returns
the final `(sorted_row, temp_row)`.  Python `//` is floor division. -/
def sortedRowsLoop (first : Int) (tmp : List (Int × Int × Int))
    (acc : List (List (Int × Int × Int))) :
    List (Int × Int × Int) → List (List (Int × Int × Int)) × List (Int × Int × Int)
  | [] => (acc, tmp)
  | row :: rest =>
    if Int.fdiv first 10 = Int.fdiv row.1 10 then
      sortedRowsLoop first (tmp ++ [row]) acc rest
    else
      sortedRowsLoop row.1 [row] (acc ++ [tmp]) rest

/-- `SlimmeMeter.sorted_rows` (P1reader.py lines 158-171): `none` models the
bare `return` (Python `None`) on empty input; otherwise the returned value is
the final `sorted_row` list. -/
def sorted_rows (rows : List (Int × Int × Int)) :
    Option (List (List (Int × Int × Int))) :=
  match rows with
  | [] => none
  | r0 :: _ => some (sortedRowsLoop r0.1 [] [] rows).1

/-- The names bound at module level of P1reader.py (imports, module
assignments, function and class definitions), which form the global scope of
`SlimmeMeter.read_datagram`. -/
def p1readerModuleNames : List String :=
  ["argparse", "configparser", "datetime", "json", "jinja2", "logging", "os",
   "re", "socket", "struct", "sys", "time", "signal", "yaml", "Path",
   "__author__", "__license__", "__email__", "__version__",
   "get_arguments", "power_meter", "do_exit",
   "P1MESSAGE_RGX", "REALVALUE_RGX", "P1_ONE_VALUE_RGX", "P1_TWO_VALUES_RGX",
   "P1_KEYS", "P1_KEYS_TO_FRIENDLY_NAME", "CONFIG", "SlimmeMeter",
   "write_to_csv_file", "get_config_value", "main"]

/-- The local names of `SlimmeMeter.read_datagram` in P1reader.py that are
bound when its `except` handler runs: the parameter and the names assigned
before the `json.loads` call (lines 368-372). -/
def readDatagramLocalNames : List String :=
  ["self", "p1_line", "data", "buf", "who"]

/-- Python builtin names (the relevant portion of the builtins scope; the
builtins carry no name `now`). -/
def pythonBuiltinNames : List String :=
  ["abs", "all", "any", "bool", "bytes", "dict", "divmod", "enumerate",
   "filter", "float", "format", "getattr", "hasattr", "hash", "id", "input",
   "int", "isinstance", "iter", "len", "list", "map", "max", "min", "next",
   "object", "open", "ord", "pow", "print", "range", "repr", "reversed",
   "round", "set", "setattr", "slice", "sorted", "str", "sum", "super",
   "tuple", "type", "vars", "zip", "BaseException", "Exception",
   "ArithmeticError", "AttributeError", "IndexError", "KeyError",
   "KeyboardInterrupt", "NameError", "OSError", "RuntimeError", "StopIteration",
   "SystemExit", "TypeError", "ValueError", "ZeroDivisionError",
   "True", "False", "None", "NotImplemented", "Ellipsis", "chr", "bin", "hex",
   "oct", "callable", "classmethod", "staticmethod", "property", "frozenset",
   "globals", "locals", "memoryview", "bytearray", "complex", "compile",
   "eval", "exec", "delattr", "dir", "help", "issubclass", "vars"]

/-- Python name resolution inside the `except` handler of
`SlimmeMeter.read_datagram` (P1reader.py line 376): local scope, then the
module's global scope, then builtins. -/
def nameInScope (n : String) : Bool :=
  readDatagramLocalNames.contains n ∨ p1readerModuleNames.contains n ∨
    pythonBuiltinNames.contains n

/-- Outcome of the consumer receiving a payload whose bytes fail to decode as
JSON. -/
inductive PayloadFailureOutcome where
  | droppedLogged
  | raisedExn (name : String)
  deriving DecidableEq

/-- What the `except` handler of `SlimmeMeter.read_datagram` (P1reader.py
lines 375-378) does on a JSON decode failure: it evaluates the f-string
`f"{now} ERROR decoding json message: ..."`, which first resolves the name
`now`; only if that succeeds are the two error lines logged and `None`
returned (the message dropped).  An unresolvable name raises `NameError`,
which propagates out of the handler. -/
def jsonDecodeFailureOutcome : PayloadFailureOutcome :=
  if nameInScope "now" then .droppedLogged else .raisedExn "NameError"

/-- A consumer telegram carrying all six energy/power fields used by the
aggregation stages, with import power `p` and all other fields zero. -/
def c6Tg (p : Int) : Telegram :=
  [("1-0:1.7.0", p), ("1-0:2.7.0", 0), ("1-0:1.8.1", 0), ("1-0:1.8.2", 0),
   ("1-0:2.8.1", 0), ("1-0:2.8.2", 0)]

/-- The periodic-batch scenario of the spec: samples every 60 s from t = 0 to
t = 300 with import powers 10, 20, 10, 20, 10, 20, followed by one more
sample at t = 310; one sender, consecutive frame numbers. -/
def c6Inputs : List (Nat × Int × Int × Telegram) :=
  [(1, 1, 0, c6Tg 10), (1, 2, 60, c6Tg 20), (1, 3, 120, c6Tg 10),
   (1, 4, 180, c6Tg 20), (1, 5, 240, c6Tg 10), (1, 6, 300, c6Tg 20),
   (1, 7, 310, c6Tg 99)]

/-- Three telegrams from one sender with frame numbers 1, 2, 4 (times chosen
off the weekly and batch boundaries). -/
def c7Inputs : List (Nat × Int × Int × Telegram) :=
  [(1, 1, 11, c6Tg 10), (1, 2, 12, c6Tg 10), (1, 4, 13, c6Tg 10)]

/-- The end-to-end decoding scenario of the spec: one full frame of four
lines. -/
def c8Lines : List (List Char) :=
  ["/ISK5\\2M550T-1013".data, "1-0:1.7.0(00.500*kW)".data,
   "1-0:2.7.0(00.100*kW)".data, "!1234".data]

/-- A frame whose header line is followed by a second header-like line before
any frame end. -/
def c3Lines : List (List Char) :=
  ["/AAA".data, "/BBB".data, "1-0:1.7.0(00.500*kW)".data, "!1234".data]

/-- Rolling-buffer sample number `k` of the capacity scenario. -/
def c1Sample (k : Nat) : Int × Int × Int := ((k : Int), (k : Int), 0)

/-- Samples 1 .. 121 in order. -/
def c1Samples121 : List (Int × Int × Int) :=
  (List.range 121).map (fun i => c1Sample (i + 1))

/-- Every periodic-batch entry holds non-empty sample lists (the property
`print_csv` relies on when dividing by the sample counts). -/
def GoodCsv (st : AggState) : Prop :=
  ∀ en ∈ st.csvdata, en.verbruik ≠ [] ∧ en.levering ≠ []

/-- A telegram missing the expected key `1-0:1.8.1` (all other keys the
aggregation stages read are present). -/
def c5MissingTg : Telegram :=
  [("1-0:1.7.0", 500), ("1-0:1.8.2", 0), ("1-0:2.8.1", 0), ("1-0:2.8.2", 0),
   ("1-0:2.7.0", 7)]

/-- A telegram missing the expected key `1-0:1.8.2`. -/
def c5MissingTg2 : Telegram :=
  [("1-0:1.8.1", 3), ("1-0:1.7.0", 500), ("1-0:2.8.1", 0), ("1-0:2.8.2", 0),
   ("1-0:2.7.0", 7)]

/-- A telegram like those of the amended claim C5: the five expected keys
other than the export power `1-0:2.7.0`, which is absent. -/
def c5NoExportTg (a b c d e : Int) : Telegram :=
  [("1-0:1.8.1", a), ("1-0:1.8.2", b), ("1-0:1.7.0", c), ("1-0:2.8.1", d),
   ("1-0:2.8.2", e)]

/-- A decoder state that is mid-frame: a header has been seen (frame 1) and
no frame end yet. -/
def c3MidFrameSt : DecState :=
  ⟨⟨[(headerKey, PVal.str "/AAA".data)], 1⟩, true, 1⟩

/-- A single received telegram that closes a batch window immediately
(t = 301: `301 % 300 < 3` and `301 - 0 > 10`). -/
def c10Inputs : List (Nat × Int × Int × Telegram) :=
  [(1, 1, 301, c6Tg 10)]

theorem lasttenStep_foldl_append (l : List (Int × Int × Int)) :
    ∀ b : List (Int × Int × Int), b.length + l.length ≤ 121 →
      List.foldl lasttenStep b l = b ++ l := by
  induction l with
  | nil => intro b _; simp
  | cons x xs ih =>
    intro b hb
    simp only [List.length_cons] at hb
    have hstep : lasttenStep b x = b ++ [x] := by
      have : ¬ b.length > 120 := by omega
      simp [lasttenStep, this]
    simp only [List.foldl_cons, hstep]
    rw [ih (b ++ [x]) (by simp; omega)]
    simp

theorem c1Samples121_length : c1Samples121.length = 121 := by
  simp [c1Samples121]

/-- Claim C1, counterexample: after ingesting 121 samples into the initially
empty rolling buffer, its length is 121, not 120 — the eviction test
`len(self.lastten) > 120` only fires once the buffer already holds 121
entries. -/
theorem c1_counterexample :
    (List.foldl lasttenStep [] c1Samples121).length = 121 ∧ (121 : Nat) ≠ 120 := by
  constructor
  · rw [lasttenStep_foldl_append c1Samples121 [] (by rw [c1Samples121_length]; simp)]
    simpa using c1Samples121_length
  · decide

/-- Claim C1 (amended): each ingest appends the sample and evicts the oldest
entry only when the length already exceeds 120, so the length never exceeds
121; after ingesting the 121 samples into an initially empty buffer nothing
has been evicted yet — the buffer holds samples 1..121. -/
theorem c1_rolling_buffer (buf : List (Int × Int × Int)) (s : Int × Int × Int)
    (h : buf.length ≤ 121) :
    (lasttenStep buf s).length ≤ 121 ∧
    (buf.length > 120 → lasttenStep buf s = buf.drop 1 ++ [s]) ∧
    (buf.length ≤ 120 → lasttenStep buf s = buf ++ [s]) ∧
    List.foldl lasttenStep [] c1Samples121 = c1Samples121 := by
  refine ⟨?_, ?_, ?_, ?_⟩
  · by_cases hb : buf.length > 120
    · simp only [lasttenStep, if_pos hb]
      simp
      omega
    · simp only [lasttenStep, if_neg hb]
      simp
      omega
  · intro hb
    simp [lasttenStep, hb]
  · intro hb
    have : ¬ buf.length > 120 := by omega
    simp [lasttenStep, this]
  · rw [lasttenStep_foldl_append c1Samples121 [] (by rw [c1Samples121_length]; simp)]
    simp

theorem c1_rolling_buffer_witness :
    ([] : List (Int × Int × Int)).length ≤ 121 ∧
    ((lasttenStep [] (c1Sample 1)).length ≤ 121 ∧
     (([] : List (Int × Int × Int)).length > 120 →
       lasttenStep [] (c1Sample 1) = List.drop 1 [] ++ [c1Sample 1]) ∧
     (([] : List (Int × Int × Int)).length ≤ 120 →
       lasttenStep [] (c1Sample 1) = [] ++ [c1Sample 1]) ∧
     List.foldl lasttenStep [] c1Samples121 = c1Samples121) :=
  ⟨by decide, c1_rolling_buffer [] (c1Sample 1) (by decide)⟩

/-- Claim C2: on a payload that fails JSON decoding, the `except` handler of
`SlimmeMeter.read_datagram` evaluates an f-string that references the name
`now`, which is bound neither locally, nor at module level, nor as a builtin;
the handler itself therefore raises `NameError` (uncaught, fatal to the
consumer) instead of logging and dropping the message. -/
theorem c2_payload_failure_fatal :
    jsonDecodeFailureOutcome = .raisedExn "NameError" ∧
      jsonDecodeFailureOutcome ≠ .droppedLogged := by
  constructor
  · decide
  · decide

/-- Claim C4: the timestamp argument `print_csv` computes for a batch row is
`epoch_time / 300 * 300` with Python 3 TRUE division, which equals the
unfloored epoch time for every sample; at `epoch_time = 150` it yields 150
whereas the claimed value — floored to the enclosing 300-second boundary —
is 0. -/
theorem c4_timestamp_not_floored :
    (∀ epoch : Int, csvRowTimeArg epoch = (epoch : ℚ)) ∧
      csvRowTimeArg 150 ≠ ((specFloored300 150 : Int) : ℚ) := by
  constructor
  · intro epoch
    unfold csvRowTimeArg
    rw [div_mul_cancel₀]
    norm_num
  · have h : specFloored300 150 = 0 := by decide
    rw [h]
    unfold csvRowTimeArg
    norm_num

/-- Claim C8: from the Idle state, the four lines
`/ISK5\2M550T-1013`, `1-0:1.7.0(00.500*kW)`, `1-0:2.7.0(00.100*kW)`, `!1234`
decode to exactly one emitted telegram with that header, field `1-0:1.7.0`
equal to the integer 500, field `1-0:2.7.0` equal to the integer 100, and
checksum string `1234`; no exception is raised. -/
theorem c8_end_to_end_decode :
    (decodeLines initDecState c8Lines).2.2 = none ∧
    ((decodeLines initDecState c8Lines).2.1.map
      (fun m => dictGetD m.telegram headerKey)) =
      [some (.str "/ISK5\\2M550T-1013".data)] ∧
    ((decodeLines initDecState c8Lines).2.1.map
      (fun m => dictGetD m.telegram "1-0:1.7.0".data)) = [some (.int 500)] ∧
    ((decodeLines initDecState c8Lines).2.1.map
      (fun m => dictGetD m.telegram "1-0:2.7.0".data)) = [some (.int 100)] ∧
    ((decodeLines initDecState c8Lines).2.1.map
      (fun m => dictGetD m.telegram checksumKey)) = [some (.str "1234".data)] := by
  decide

/-- Claim C3, counterexample: feeding `/AAA`, `/BBB`, a field line and a
frame end produces one telegram whose header is still `/AAA` and which
contains the field decoded after the second `/` line — the buffered partial
frame was NOT discarded and framing did NOT restart with `/BBB` as header. -/
theorem c3_counterexample :
    ((decodeLines initDecState c3Lines).2.1.map
      (fun m => dictGetD m.telegram headerKey)) = [some (.str "/AAA".data)] ∧
    ((decodeLines initDecState c3Lines).2.1.map
      (fun m => dictGetD m.telegram "1-0:1.7.0".data)) = [some (.int 500)] ∧
    ¬ ((decodeLines initDecState c3Lines).2.1.map
      (fun m => dictGetD m.telegram headerKey)) = [some (.str "/BBB".data)] := by
  decide

/-- Claim C5, counterexample: a telegram missing the expected key
`1-0:1.8.1` (with the export-power key present) makes the ingest raise
`KeyError: 1-0:1.8.1` at the weekly-measurement access instead of defaulting
the missing value to zero and completing. -/
theorem c5_counterexample :
    (read_datagram_process initAgg 1 1 30 c5MissingTg).2.2 =
      some "KeyError: 1-0:1.8.1" ∧
    (read_datagram_process initAgg 1 1 30 c5MissingTg).2.2 ≠ none := by
  decide

/-- Claim C9, counterexample: on the two-sample buffer
`[(5,1,2), (12,3,4)]` the grouping returns only the run of the first sample;
the sample `(12,3,4)` appears in no returned run, so the operation does not
partition the buffered samples. -/
theorem c9_counterexample :
    sorted_rows [((5 : Int), (1 : Int), (2 : Int)), (12, 3, 4)] =
      some [[(5, 1, 2)]] ∧
    ((12 : Int), (3 : Int), (4 : Int)) ∉
      (([[((5 : Int), (1 : Int), (2 : Int))]]).flatten) := by
  constructor
  · decide
  · decide

theorem read_datagram_process_gap (st : AggState) (sender : Nat)
    (frameNo t : Int) (tg : Telegram) :
    (read_datagram_process st sender frameNo t tg).2.1 =
      (seqStage st sender frameNo).2 := by
  unfold read_datagram_process
  rcases hs : seqStage st sender frameNo with ⟨st1, gap⟩
  simp only [hs]
  split
  · rfl
  · split
    · rfl
    · rfl

theorem seqStage_new_sender (st : AggState) (sender : Nat) (frameNo : Int)
    (h : st.who ≠ some sender) : (seqStage st sender frameNo).2 = false := by
  simp [seqStage, h]

/-- Claim C7: ingesting frames numbered 1, 2, 4 from one sender emits exactly
one sequence-gap warning — at the third telegram — resyncs the expected
frame number to 4 + 1 = 5, and no error occurs; and a change of sender
identity (any state whose tracked sender differs) never flags the incoming
telegram as a gap. -/
theorem c7_sequence_tracking (st : AggState) (sender : Nat) (frameNo t : Int)
    (tg : Telegram) (h : st.who ≠ some sender) :
    (((runAgg initAgg c7Inputs).2.map Prod.fst) = [false, false, true] ∧
      (runAgg initAgg c7Inputs).1.telegram_framenumber = 5 ∧
      ((runAgg initAgg c7Inputs).2.map Prod.snd) = [none, none, none]) ∧
    (read_datagram_process st sender frameNo t tg).2.1 = false := by
  refine ⟨⟨by decide, by decide, by decide⟩, ?_⟩
  rw [read_datagram_process_gap]
  exact seqStage_new_sender st sender frameNo h

theorem c7_sequence_tracking_witness :
    initAgg.who ≠ some 1 ∧
    ((((runAgg initAgg c7Inputs).2.map Prod.fst) = [false, false, true] ∧
      (runAgg initAgg c7Inputs).1.telegram_framenumber = 5 ∧
      ((runAgg initAgg c7Inputs).2.map Prod.snd) = [none, none, none]) ∧
    (read_datagram_process initAgg 1 5 99 ([] : Telegram)).2.1 = false) :=
  ⟨by decide, c7_sequence_tracking initAgg 1 5 99 ([] : Telegram) (by decide)⟩

/-- Claim C6: on batch samples at t = 0, 60, 120, 180, 240, 300 with import
powers 10, 20, 10, 20, 10, 20 from a fresh state (previous close marker 0),
exactly one window closes, at t = 300, containing precisely those six import
samples; the `print_csv` statistics on that window are min 10, max 20,
sum 90, count 6, and `avg = sum / count = 15` exactly (true division, no
truncation); the accumulation list is empty right after the close and the
following sample (t = 310) starts the new window. -/
theorem c6_periodic_batch :
    ((runAgg initAgg c6Inputs).2.map Prod.snd) =
      [none, none, none, none, none, none, none] ∧
    ((runAgg initAgg c6Inputs).1.csvdata.map CsvEntry.t) = [300] ∧
    ((runAgg initAgg c6Inputs).1.csvdata.map CsvEntry.verbruik) =
      [[10, 20, 10, 20, 10, 20]] ∧
    csvStatsLoop [10, 20, 10, 20, 10, 20] = (10, 20, 90, 6) ∧
    csvAvg [10, 20, 10, 20, 10, 20] = 15 ∧
    (runAgg initAgg (c6Inputs.take 6)).1.csvverbruik = [] ∧
    (runAgg initAgg c6Inputs).1.csvverbruik = [99] := by
  refine ⟨by decide, by decide, by decide, by decide, ?_, by decide, by decide⟩
  have h : csvStatsLoop [10, 20, 10, 20, 10, 20] = (10, 20, 90, 6) := by decide
  unfold csvAvg
  rw [h]
  norm_num

/-- Claim C5 (amended): only the export-power key `1-0:2.7.0` is defaulted —
to zero — when absent: for any telegram carrying the other five expected
keys but no `1-0:2.7.0`, the ingest at a weekly boundary completes with no
exception, records 0 as the export power in the weekly row, the rolling
buffer and the batch accumulation; a telegram missing any other expected key
instead raises an uncaught `KeyError` for that key. -/
theorem c5_missing_field_default (a b c d e : Int) :
    read_datagram_process initAgg 1 1 30 (c5NoExportTg a b c d e) =
      (⟨[[30, a, b, c, d, e, 0]], [(30, c, 0)], [], [c], [0], 0, some 1, 2⟩,
        false, none) ∧
    (read_datagram_process initAgg 1 1 60 c5MissingTg2).2.2 =
      some "KeyError: 1-0:1.8.2" := by
  constructor
  · rfl
  · decide

theorem dictGetD_dictSetD_isSome (d : List (List Char × PVal))
    (k k2 : List Char) (v : PVal) (h : (dictGetD d k2).isSome = true) :
    (dictGetD (dictSetD d k v) k2).isSome = true := by
  induction d with
  | nil => simp [dictGetD] at h
  | cons p rest ih =>
    obtain ⟨k1, v1⟩ := p
    by_cases h1 : k1 = k
    · subst h1
      simp only [dictSetD, if_pos rfl]
      by_cases h2 : k1 = k2
      · simp [dictGetD, h2]
      · simp only [dictGetD, if_neg h2] at h ⊢
        exact h
    · simp only [dictSetD, if_neg h1]
      by_cases h2 : k1 = k2
      · simp [dictGetD, h2]
      · simp only [dictGetD, if_neg h2] at h ⊢
        exact ih h

/-- Claim C3 (amended): a line beginning with a slash received while already
in-frame is NOT treated as a frame start: nothing is emitted, the decoder
stays in-frame with the same frame number and datagram counter, and every
already-buffered telegram key (header included) remains present — the line
is only matched against the two field patterns like any other in-frame line
(a plain header line matches neither and is silently ignored). -/
theorem c3_frame_start_in_frame (st : DecState) (line : List Char)
    (h1 : st.first_line_read = true) (h2 : line.head? = some '/') :
    (decodeLine st line).2.1 = none ∧
    (decodeLine st line).1.first_line_read = true ∧
    (decodeLine st line).1.datagram_counter = st.datagram_counter ∧
    (decodeLine st line).1.data.frameNumber = st.data.frameNumber ∧
    ∀ k, (dictGetD st.data.telegram k).isSome = true →
      (dictGetD (decodeLine st line).1.data.telegram k).isSome = true := by
  have hbang : ¬ (line.head? = some '!' ∧ line.length = 5) := by
    rintro ⟨hb, -⟩
    rw [h2] at hb
    exact absurd hb (by decide)
  have hfl : ¬ (st.first_line_read = false ∧ line.head? = some '/') := by
    rintro ⟨hb, -⟩
    rw [h1] at hb
    exact absurd hb (by decide)
  have hfl2 : ¬ st.first_line_read = false := by
    rw [h1]
    decide
  unfold decodeLine
  rw [if_neg hfl, if_neg hfl2, if_neg hbang]
  rcases hone : oneValueSearch line with _ | ⟨key, v⟩
  · rcases htwo : twoValuesSearch line with _ | ⟨key, v1, v2⟩
    · simp only [hone, htwo]
      exact ⟨trivial, h1, trivial, trivial, fun k hk => hk⟩
    · rcases hp1 : parse_p1_value v1 with e1 | pv1
      · simp only [hone, htwo, hp1]
        exact ⟨trivial, h1, trivial, trivial, fun k hk => hk⟩
      · rcases hp2 : parse_p1_value v2 with e2 | pv2
        · simp only [hone, htwo, hp1, hp2]
          exact ⟨trivial, h1, trivial, trivial, fun k hk => hk⟩
        · simp only [hone, htwo, hp1, hp2]
          refine ⟨trivial, h1, trivial, trivial, fun k hk => ?_⟩
          exact dictGetD_dictSetD_isSome _ _ _ _
            (dictGetD_dictSetD_isSome _ _ _ _ hk)
  · rcases hp : parse_p1_value v with e | pv
    · simp only [hone, hp]
      exact ⟨trivial, h1, trivial, trivial, fun k hk => hk⟩
    · simp only [hone, hp]
      exact ⟨trivial, h1, trivial, trivial,
        fun k hk => dictGetD_dictSetD_isSome _ _ _ _ hk⟩

theorem c3_frame_start_in_frame_witness :
    c3MidFrameSt.first_line_read = true ∧ ("/BBB".data).head? = some '/' ∧
    ((decodeLine c3MidFrameSt "/BBB".data).2.1 = none ∧
    (decodeLine c3MidFrameSt "/BBB".data).1.first_line_read = true ∧
    (decodeLine c3MidFrameSt "/BBB".data).1.datagram_counter =
      c3MidFrameSt.datagram_counter ∧
    (decodeLine c3MidFrameSt "/BBB".data).1.data.frameNumber =
      c3MidFrameSt.data.frameNumber ∧
    ∀ k, (dictGetD c3MidFrameSt.data.telegram k).isSome = true →
      (dictGetD (decodeLine c3MidFrameSt "/BBB".data).1.data.telegram k).isSome = true) :=
  ⟨by decide, by decide,
    c3_frame_start_in_frame c3MidFrameSt "/BBB".data (by decide) (by decide)⟩

theorem sortedRowsLoop_inv (rs : List (Int × Int × Int)) :
    ∀ (first : Int) (tmp : List (Int × Int × Int))
      (acc : List (List (Int × Int × Int))),
      tmp ≠ [] →
      (∀ x ∈ tmp, Int.fdiv x.1 10 = Int.fdiv first 10) →
      (∀ run ∈ acc, run ≠ [] ∧
        ∀ x ∈ run, ∀ y ∈ run, Int.fdiv x.1 10 = Int.fdiv y.1 10) →
      (sortedRowsLoop first tmp acc rs).2 ≠ [] ∧
      (sortedRowsLoop first tmp acc rs).1.flatten ++
        (sortedRowsLoop first tmp acc rs).2 = acc.flatten ++ tmp ++ rs ∧
      (∀ run ∈ (sortedRowsLoop first tmp acc rs).1, run ≠ [] ∧
        ∀ x ∈ run, ∀ y ∈ run, Int.fdiv x.1 10 = Int.fdiv y.1 10) := by
  induction rs with
  | nil =>
    intro first tmp acc htmp hshare hacc
    exact ⟨htmp, by simp [sortedRowsLoop], hacc⟩
  | cons row rest ih =>
    intro first tmp acc htmp hshare hacc
    by_cases hc : Int.fdiv first 10 = Int.fdiv row.1 10
    · have step : sortedRowsLoop first tmp acc (row :: rest) =
        sortedRowsLoop first (tmp ++ [row]) acc rest := by
        simp [sortedRowsLoop, hc]
      rw [step]
      have hshare2 : ∀ x ∈ tmp ++ [row], Int.fdiv x.1 10 = Int.fdiv first 10 := by
        intro x hx
        rcases List.mem_append.mp hx with hx | hx
        · exact hshare x hx
        · rcases List.mem_singleton.mp hx with rfl
          exact hc.symm
      obtain ⟨a, b, c⟩ := ih first (tmp ++ [row]) acc (by simp) hshare2 hacc
      refine ⟨a, ?_, c⟩
      rw [b]
      simp
    · have step : sortedRowsLoop first tmp acc (row :: rest) =
        sortedRowsLoop row.1 [row] (acc ++ [tmp]) rest := by
        simp [sortedRowsLoop, hc]
      rw [step]
      have hacc2 : ∀ run ∈ acc ++ [tmp], run ≠ [] ∧
          ∀ x ∈ run, ∀ y ∈ run, Int.fdiv x.1 10 = Int.fdiv y.1 10 := by
        intro run hr
        rcases List.mem_append.mp hr with hr | hr
        · exact hacc run hr
        · rcases List.mem_singleton.mp hr with rfl
          refine ⟨htmp, fun x hx y hy => ?_⟩
          rw [hshare x hx, hshare y hy]
      obtain ⟨a, b, c⟩ := ih row.1 [row] (acc ++ [tmp]) (by simp) (by simp) hacc2
      refine ⟨a, ?_, c⟩
      rw [b]
      simp

/-- Claim C9 (amended): for every non-empty buffer contents, `sorted_rows`
returns the consecutive runs of samples sharing the same `t // 10` value —
except the final run, which is dropped (never appended to the result), so the
samples of the final run appear in no returned run; the returned runs are
non-empty, agree on `t // 10`, and their concatenation followed by the
dropped final run is exactly the input. -/
theorem c9_grouping (rows : List (Int × Int × Int)) (h : rows ≠ []) :
    ∃ runs lastRun, sorted_rows rows = some runs ∧ lastRun ≠ [] ∧
      runs.flatten ++ lastRun = rows ∧
      ∀ run ∈ runs, run ≠ [] ∧
        ∀ x ∈ run, ∀ y ∈ run, Int.fdiv x.1 10 = Int.fdiv y.1 10 := by
  rcases rows with _ | ⟨r0, rest⟩
  · exact absurd rfl h
  · have step : sortedRowsLoop r0.1 [] [] (r0 :: rest) =
        sortedRowsLoop r0.1 [r0] [] rest := by
      simp [sortedRowsLoop]
    obtain ⟨a, b, c⟩ := sortedRowsLoop_inv rest r0.1 [r0] [] (by simp)
      (by simp) (by simp)
    refine ⟨(sortedRowsLoop r0.1 [r0] [] rest).1,
      (sortedRowsLoop r0.1 [r0] [] rest).2, ?_, a, ?_, c⟩
    · simp [sorted_rows, step]
    · rw [b]
      simp

theorem c9_grouping_witness :
    ([((5 : Int), (1 : Int), (2 : Int)), (12, 3, 4)] :
      List (Int × Int × Int)) ≠ [] ∧
    (∃ runs lastRun,
      sorted_rows [((5 : Int), (1 : Int), (2 : Int)), (12, 3, 4)] = some runs ∧
      lastRun ≠ [] ∧
      runs.flatten ++ lastRun = [((5 : Int), (1 : Int), (2 : Int)), (12, 3, 4)] ∧
      ∀ run ∈ runs, run ≠ [] ∧
        ∀ x ∈ run, ∀ y ∈ run, Int.fdiv x.1 10 = Int.fdiv y.1 10) :=
  ⟨by decide, c9_grouping [((5 : Int), (1 : Int), (2 : Int)), (12, 3, 4)] (by decide)⟩

theorem seqStage_csvdata (st : AggState) (sender : Nat) (frameNo : Int) :
    (seqStage st sender frameNo).1.csvdata = st.csvdata := by
  unfold seqStage
  dsimp only
  split_ifs <;> rfl

theorem weeklyStage_csvdata (st : AggState) (t : Int) (tg : Telegram) :
    (weeklyStage st t tg).1.csvdata = st.csvdata := by
  unfold weeklyStage
  split
  · split <;> rfl
  · rfl

theorem lasttenStage_csvdata (st : AggState) (t : Int) (tg : Telegram) :
    (lasttenStage st t tg).1.csvdata = st.csvdata := by
  unfold lasttenStage
  split
  · rfl
  · split <;> rfl

theorem goodCsv_of_csvdata_eq (s1 s2 : AggState) (hcd : s1.csvdata = s2.csvdata)
    (hg : GoodCsv s2) : GoodCsv s1 := by
  intro en hen
  exact hg en (hcd ▸ hen)

theorem csvStage_good (st : AggState) (t : Int) (tg : Telegram)
    (h : GoodCsv st) : GoodCsv (csvStage st t tg).1 := by
  unfold csvStage
  split
  · exact h
  · split
    · exact h
    · dsimp only
      split <;> try split
      all_goals
        first
          | exact h
          | (intro en hen
             rcases List.mem_append.mp hen with hen | hen
             · exact h en hen
             · rcases List.mem_singleton.mp hen with rfl
               exact ⟨by simp, by simp⟩)

theorem read_datagram_process_good (st : AggState) (sender : Nat)
    (frameNo t : Int) (tg : Telegram) (h : GoodCsv st) :
    GoodCsv (read_datagram_process st sender frameNo t tg).1 := by
  unfold read_datagram_process
  rcases hs : seqStage st sender frameNo with ⟨st1, gap⟩
  have h1 : GoodCsv st1 := by
    have hcd := seqStage_csvdata st sender frameNo
    rw [hs] at hcd
    exact goodCsv_of_csvdata_eq st1 st hcd h
  simp only [hs]
  split
  · next st2 e heq =>
    have hcd := weeklyStage_csvdata st1 t (defaultExportKey tg)
    rw [heq] at hcd
    exact goodCsv_of_csvdata_eq st2 st1 hcd h1
  · next st2 heq =>
    have hcd := weeklyStage_csvdata st1 t (defaultExportKey tg)
    rw [heq] at hcd
    have h2 : GoodCsv st2 := goodCsv_of_csvdata_eq st2 st1 hcd h1
    split
    · next st3 e heq2 =>
      have hcd2 := lasttenStage_csvdata st2 t (defaultExportKey tg)
      rw [heq2] at hcd2
      exact goodCsv_of_csvdata_eq st3 st2 hcd2 h2
    · next st3 heq2 =>
      have hcd2 := lasttenStage_csvdata st2 t (defaultExportKey tg)
      rw [heq2] at hcd2
      have h3 : GoodCsv st3 := goodCsv_of_csvdata_eq st3 st2 hcd2 h2
      exact csvStage_good st3 t (defaultExportKey tg) h3

theorem runAgg_good (inputs : List (Nat × Int × Int × Telegram)) :
    ∀ st : AggState, GoodCsv st → GoodCsv (runAgg st inputs).1 := by
  induction inputs with
  | nil => intro st h; exact h
  | cons p rest ih =>
    intro st h
    obtain ⟨s, f, t, tg⟩ := p
    rcases hp : read_datagram_process st s f t tg with ⟨st1, gap, err⟩
    have h1 : GoodCsv st1 := by
      have := read_datagram_process_good st s f t tg h
      rw [hp] at this
      exact this
    rcases hr : runAgg st1 rest with ⟨st2, outs⟩
    have h2 : GoodCsv st2 := by
      have := ih st1 h1
      rw [hr] at this
      exact this
    simp only [runAgg, hp, hr]
    exact h2

theorem csvStatsLoop_count_aux (l : List Int) :
    ∀ init : Int × Int × Int × Int,
      (l.foldl (fun acc e =>
        let (mn, mx, sm, n) := acc
        let mx := if e > mx then e else mx
        let mn := if e < mn then e else mn
        (mn, mx, sm + e, n + 1)) init).2.2.2 = init.2.2.2 + l.length := by
  induction l with
  | nil => intro init; simp
  | cons x xs ih =>
    intro init
    obtain ⟨mn, mx, sm, n⟩ := init
    simp only [List.foldl_cons]
    rw [ih]
    simp only [List.length_cons]
    push_cast
    ring

theorem csvStatsLoop_count (l : List Int) :
    (csvStatsLoop l).2.2.2 = (l.length : Int) := by
  unfold csvStatsLoop
  rw [csvStatsLoop_count_aux]
  simp

/-- Claim C10: every batch entry appended to `csvdata` carries non-empty
sample lists for import and export (the triggering telegram's own power samples
are appended before the window-close check), so in `print_csv` the sample
counts are each at least 1 and the average divisions never divide by zero. -/
theorem c10_counts_positive (inputs : List (Nat × Int × Int × Telegram))
    (en : CsvEntry) (h : en ∈ (runAgg initAgg inputs).1.csvdata) :
    en.verbruik ≠ [] ∧ en.levering ≠ [] ∧
    1 ≤ (csvStatsLoop en.verbruik).2.2.2 ∧
    1 ≤ (csvStatsLoop en.levering).2.2.2 := by
  have hinit : GoodCsv initAgg := by
    intro en hen
    exact absurd hen (List.not_mem_nil en)
  obtain ⟨h1, h2⟩ := runAgg_good inputs initAgg hinit en h
  have l1 : 0 < en.verbruik.length := List.length_pos.mpr h1
  have l2 : 0 < en.levering.length := List.length_pos.mpr h2
  refine ⟨h1, h2, ?_, ?_⟩
  · rw [csvStatsLoop_count]
    omega
  · rw [csvStatsLoop_count]
    omega

theorem c10_counts_positive_witness :
    ((⟨301, 0, [10], 0, [0]⟩ : CsvEntry) ∈
      (runAgg initAgg c10Inputs).1.csvdata) ∧
    ((⟨301, 0, [10], 0, [0]⟩ : CsvEntry).verbruik ≠ [] ∧
     (⟨301, 0, [10], 0, [0]⟩ : CsvEntry).levering ≠ [] ∧
     1 ≤ (csvStatsLoop (⟨301, 0, [10], 0, [0]⟩ : CsvEntry).verbruik).2.2.2 ∧
     1 ≤ (csvStatsLoop (⟨301, 0, [10], 0, [0]⟩ : CsvEntry).levering).2.2.2) :=
  ⟨by decide, c10_counts_positive c10Inputs ⟨301, 0, [10], 0, [0]⟩ (by decide)⟩

theorem c4_timestamp_not_floored_witness :
    csvRowTimeArg 7 = ((7 : Int) : ℚ) ∧
      csvRowTimeArg 150 ≠ ((specFloored300 150 : Int) : ℚ) :=
  ⟨c4_timestamp_not_floored.1 7, c4_timestamp_not_floored.2⟩

theorem c5_missing_field_default_witness :
    read_datagram_process initAgg 1 1 30 (c5NoExportTg 1 2 3 4 5) =
      (⟨[[30, 1, 2, 3, 4, 5, 0]], [(30, 3, 0)], [], [3], [0], 0, some 1, 2⟩,
        false, none) ∧
    (read_datagram_process initAgg 1 1 60 c5MissingTg2).2.2 =
      some "KeyError: 1-0:1.8.2" :=
  c5_missing_field_default 1 2 3 4 5
